import Mathlib

/-!
Verification of the passkey (WebAuthn) authentication subsystem of the
envoy-ai backend, shallowly embedded from
`src/backend/app/services/auth_service.py`, `src/backend/app/api/auth.py`,
`src/backend/app/models.py` and `src/backend/app/database.py`.

Modelling conventions:
- Python `bytes` values are lists of naturals below 256 (`Bytes`).
- The in-memory challenge dictionary `AuthService.challenges` is an
  association list with Python-dict update/delete semantics (`dictGet`,
  `dictSet`, `dictDel`).
- The SQLAlchemy session is modelled at the transaction level: a `DB` value
  is the committed database state.  A flush-time or commit-time unique
  constraint violation aborts the whole transaction and the committed state
  is unchanged (SQLAlchemy rolls the transaction back on a failed
  flush/commit, and `get_db` closes — hence rolls back — any session whose
  request raised), so a service call maps a committed state to a committed
  state.
- Nondeterministic inputs (`secrets.token_bytes(32)`, `datetime.utcnow()`)
  are explicit parameters (`fresh`, `now`).
- The external WebAuthn verification primitives from the third-party
  `webauthn` package (`verify_registration_response`,
  `verify_authentication_response`) are out of scope for the repository and
  are passed as function parameters; theorems that depend on primitive
  behaviour state the needed property as a hypothesis.
- The external `jose` JWT library is idealised as a perfect
  message-authentication scheme: a token carries its payload and a signature
  that checks iff it was produced with the same key, and decoding enforces
  the expiry claim.
-/

set_option autoImplicit false

namespace EnvoyAuth

/-! ## Bytes and encodings -/

/-- A Python `bytes` value: a list of byte values. -/
abbrev Bytes := List Nat

/-- All entries of the list are genuine byte values (below 256). -/
def ValidBytes (bs : Bytes) : Prop := ∀ b ∈ bs, b < 256

instance (bs : Bytes) : Decidable (ValidBytes bs) :=
  inferInstanceAs (Decidable (∀ b ∈ bs, b < 256))

/-- Lower-case hexadecimal digit of a value below 16, as produced by
Python `bytes.hex()`. -/
def hexDigit (n : Nat) : Char :=
  if n < 10 then Char.ofNat (48 + n) else Char.ofNat (87 + n)

/-- Character list of `bytes.hex()`: two lower-case hex digits per byte. -/
def hexEncodeList : Bytes → List Char
  | [] => []
  | b :: rest => hexDigit (b / 16 % 16) :: hexDigit (b % 16) :: hexEncodeList rest

/-- Python `bytes.hex()`. -/
def hexEncode (bs : Bytes) : String := String.mk (hexEncodeList bs)

/-- Value of one hexadecimal digit character (upper or lower case),
as accepted by Python `bytes.fromhex`. -/
def hexDigitVal (c : Char) : Option Nat :=
  if 48 ≤ c.toNat ∧ c.toNat ≤ 57 then some (c.toNat - 48)
  else if 97 ≤ c.toNat ∧ c.toNat ≤ 102 then some (c.toNat - 87)
  else if 65 ≤ c.toNat ∧ c.toNat ≤ 70 then some (c.toNat - 55)
  else none

/-- Python `bytes.fromhex` on a character list: pairs of hex digits; `none`
models the `ValueError` raised on malformed input. -/
def hexDecodeList : List Char → Option Bytes
  | [] => some []
  | [_] => none
  | c1 :: c2 :: rest =>
    match hexDigitVal c1, hexDigitVal c2, hexDecodeList rest with
    | some h, some l, some bs => some ((16 * h + l) :: bs)
    | _, _, _ => none

/-- Python `bytes.fromhex`. -/
def hexDecode (s : String) : Option Bytes := hexDecodeList s.data

/-- UTF-8 encoding of a single character, as in Python `str.encode("utf-8")`. -/
def utf8Char (c : Char) : Bytes :=
  let n := c.toNat
  if n < 128 then [n]
  else if n < 2048 then [192 + n / 64, 128 + n % 64]
  else if n < 65536 then [224 + n / 4096, 128 + n / 64 % 64, 128 + n % 64]
  else [240 + n / 262144, 128 + n / 4096 % 64, 128 + n / 64 % 64, 128 + n % 64]

/-- Python `str.encode("utf-8")`. -/
def utf8Encode (s : String) : Bytes :=
  s.data.foldr (fun c acc => utf8Char c ++ acc) []

/-- Character of the RFC 4648 URL-safe base64 alphabet. -/
def b64Char (n : Nat) : Char :=
  if n < 26 then Char.ofNat (65 + n)
  else if n < 52 then Char.ofNat (97 + (n - 26))
  else if n < 62 then Char.ofNat (48 + (n - 52))
  else if n = 62 then Char.ofNat 45
  else Char.ofNat 95

/-- RFC 4648 base64url encoding without padding, the encoding in which
WebAuthn clients transmit the `id` and `rawId` of a credential in their
JSON responses.  Used to state concrete inputs for theorems; the repository
itself never decodes it. -/
def base64urlEncodeList : Bytes → List Char
  | [] => []
  | [b1] => [b64Char (b1 / 4 % 64), b64Char (b1 % 4 * 16)]
  | [b1, b2] => [b64Char (b1 / 4 % 64), b64Char (b1 % 4 * 16 + b2 / 16 % 16),
                 b64Char (b2 % 16 * 4)]
  | b1 :: b2 :: b3 :: rest =>
    b64Char (b1 / 4 % 64) :: b64Char (b1 % 4 * 16 + b2 / 16 % 16) ::
    b64Char (b2 % 16 * 4 + b3 / 64 % 4) :: b64Char (b3 % 64) ::
    base64urlEncodeList rest

/-- RFC 4648 base64url encoding without padding, as a string. -/
def base64urlEncode (bs : Bytes) : String := String.mk (base64urlEncodeList bs)

/-! ## The in-memory challenge dictionary

`AuthService.__init__` sets `self.challenges: Dict[str, str] = {}`, a map
from username to the hex encoding of the outstanding challenge.  It is
modelled as an association list with Python-dict semantics. -/

/-- Challenge storage of `AuthService`: username to challenge hex string. -/
abbrev ChallengeMap := List (String × String)

/-- Python `d.get(k)`: value of the first entry with the given key. -/
def dictGet : ChallengeMap → String → Option String
  | [], _ => none
  | (k', v) :: t, k => if k' = k then some v else dictGet t k

/-- Python `d[k] = v`: replace the value at an existing key, otherwise
append a new entry. -/
def dictSet : ChallengeMap → String → String → ChallengeMap
  | [], k, v => [(k, v)]
  | (k', v') :: t, k, v =>
    if k' = k then (k, v) :: t else (k', v') :: dictSet t k v

/-- Python `del d[k]`: remove the entry with the given key. -/
def dictDel : ChallengeMap → String → ChallengeMap
  | [], _ => []
  | (k', v') :: t, k => if k' = k then t else (k', v') :: dictDel t k

/-! ## Persisted data model (`src/backend/app/models.py`) -/

/-- A committed row of the `users` table: `User(id, username UNIQUE,
display_name, email UNIQUE NULLABLE, created_at)`. -/
structure UserRow where
  id : Nat
  username : String
  display_name : String
  email : Option String
  created_at : Nat
deriving DecidableEq

/-- A committed row of the `credentials` table: `Credential(id, user_id FK,
credential_id UNIQUE, public_key, sign_count, transports, created_at,
last_used_at NULLABLE)`.  `credential_id` is stored as the hex string the
service writes; `transports` as the JSON text the service writes. -/
structure CredRow where
  id : Nat
  user_id : Nat
  credential_id : String
  public_key : Bytes
  sign_count : Nat
  transports : String
  created_at : Nat
  last_used_at : Option Nat
deriving DecidableEq

/-- The committed database state relevant to the subsystem. -/
structure DB where
  users : List UserRow
  creds : List CredRow
deriving DecidableEq

/-- Next autoincrement id given the ids already present. -/
def freshId (l : List Nat) : Nat := l.foldr max 0 + 1

/-- Query `db.query(User).filter(User.username == username).first()`. -/
def findUser (db : DB) (username : String) : Option UserRow :=
  db.users.find? (fun u => u.username == username)

/-- Query `db.query(Credential).filter(Credential.user_id == user.id).all()`. -/
def userCredentials (db : DB) (uid : Nat) : List CredRow :=
  db.creds.filter (fun c => c.user_id == uid)

/-! ## Errors

The service raises `ValueError` with fixed messages for domain failures;
the routes map `ValueError` to HTTP 400 and any other exception to HTTP
500.  Each constructor records one failure mode of the service layer. -/

/-- Failure modes of the service layer.  `ValueError` messages:
`UsernameTaken` is "Username already exists", `NoCeremonyInProgress` is
"No registration in progress for this user" respectively "No authentication
in progress for this user", `UserNotFound` is "User not found",
`NoCredentials` is "No credentials found for user", `CredentialNotFound` is
"Credential not found", `BadChallengeHex` is the `ValueError` of
`bytes.fromhex`.  `AttestationInvalid` and `AssertionInvalid` carry the
detail of the exception the verification primitive raised;
`IntegrityViolation` is a database unique-constraint failure;
`AttributeFault` is the `AttributeError` raised when the transports list is
non-empty (its string elements have no `.value`). -/
inductive AuthErr where
  | UsernameTaken
  | NoCeremonyInProgress
  | UserNotFound
  | NoCredentials
  | CredentialNotFound
  | BadChallengeHex
  | AttributeFault
  | AttestationInvalid (detail : String)
  | AssertionInvalid (detail : String)
  | IntegrityViolation
deriving DecidableEq

/-- Whether a failure mode is raised as a Python `ValueError` (mapped to
HTTP 400 by the routes); the remaining modes surface as other exception
classes (mapped to HTTP 500). -/
def isValueError : AuthErr → Bool
  | .UsernameTaken => true
  | .NoCeremonyInProgress => true
  | .UserNotFound => true
  | .NoCredentials => true
  | .CredentialNotFound => true
  | .BadChallengeHex => true
  | _ => false

/-- Whether an `Except` result is a success. -/
def isOkE {ε α : Type} : Except ε α → Bool
  | .ok _ => true
  | .error _ => false

instance {ε α : Type} [DecidableEq ε] [DecidableEq α] :
    DecidableEq (Except ε α) := fun x y =>
  match x, y with
  | .ok a, .ok b => decidable_of_iff (a = b) (by simp)
  | .error a, .error b => decidable_of_iff (a = b) (by simp)
  | .ok _, .error _ => isFalse (by simp)
  | .error _, .ok _ => isFalse (by simp)

/-! ## Ceremony responses and the external verification primitives -/

/-- The fields of the registration `credential_data` dict that the service
reads directly: the top-level `transports` list (absent is the empty list)
and, for stating primitive behaviour, the challenge the client signed over
inside `clientDataJSON`. -/
structure AttestationResponse where
  transports : List String
  challenge : Bytes
deriving DecidableEq

/-- The fields of the authentication `credential_data` dict that the service
reads directly: `rawId` (only when present and a string — `some`), `id`,
and, for stating primitive behaviour, the challenge the client signed over
inside `clientDataJSON`. -/
structure AssertionResponse where
  rawId : Option String
  id : String
  challenge : Bytes
deriving DecidableEq

/-- Successful result of `verify_registration_response`: raw credential id
bytes, COSE public key bytes, and the initial signature counter. -/
structure VerifiedRegistration where
  credential_id : Bytes
  credential_public_key : Bytes
  sign_count : Nat
deriving DecidableEq

/-- Successful result of `verify_authentication_response`: the new
signature counter. -/
structure VerifiedAuthentication where
  new_sign_count : Nat
deriving DecidableEq

/-- Type of the external registration verification primitive
(`verify_registration_response`): response, expected challenge, expected
relying-party id, expected origin. -/
abbrev RegPrimitive :=
  AttestationResponse → Bytes → String → String → Except String VerifiedRegistration

/-- Type of the external authentication verification primitive
(`verify_authentication_response`): response, expected challenge, expected
relying-party id, expected origin, stored public key, stored sign count. -/
abbrev AuthPrimitive :=
  AssertionResponse → Bytes → String → String → Bytes → Nat →
    Except String VerifiedAuthentication

/-! ## Configuration (environment defaults in `auth_service.py`) -/

/-- Relying-party id, default of `RP_ID`. -/
def RP_ID : String := "localhost"

/-- Relying-party name, default of `RP_NAME`. -/
def RP_NAME : String := "Envoy AI"

/-- Relying-party origin, default of `RP_ORIGIN`. -/
def RP_ORIGIN : String := "http://localhost:3000"

/-- Token lifetime in minutes, default of `JWT_EXPIRATION_MINUTES`. -/
def JWT_EXPIRATION_MINUTES : Nat := 10080

/-- The token-signing secret; its concrete value is irrelevant, only that
creation and verification use the same one. -/
def JWT_SECRET_KEY : String := "envoy-ai-signing-secret"

/-! ## Registration ceremony (`AuthService.generate_registration_options`,
`AuthService.verify_registration`) -/

/-- The configuration `generate_registration_options` passes to the
`webauthn` option builder and returns (as parsed JSON). -/
structure RegistrationOptions where
  rp_id : String
  rp_name : String
  user_id : Bytes
  user_name : String
  user_display_name : String
  challenge : Bytes
  pub_key_algs : List Int
  user_verification : String
deriving DecidableEq

/-- Embeds `AuthService.generate_registration_options`: fail if the
username is taken, otherwise store the fresh challenge (hex) under the
username and return the ceremony options.  `fresh` is the output of
`secrets.token_bytes(32)`.  COSE algorithm identifiers: ECDSA_SHA_256 is
-7, RSASSA_PKCS1_v1_5_SHA_256 is -257. -/
def generate_registration_options (username display_name : String) (db : DB)
    (fresh : Bytes) (st : ChallengeMap) :
    Except AuthErr (RegistrationOptions × ChallengeMap) :=
  match findUser db username with
  | some _ => .error .UsernameTaken
  | none =>
    let st' := dictSet st username (hexEncode fresh)
    .ok ({ rp_id := RP_ID, rp_name := RP_NAME, user_id := utf8Encode username,
           user_name := username, user_display_name := display_name,
           challenge := fresh, pub_key_algs := [-7, -257],
           user_verification := "preferred" }, st')

/-- The list comprehension `[t.value for t in credential_data.get("transports", [])]`:
the elements of the JSON list are strings, and a string has no `.value`
attribute, so any non-empty list raises `AttributeError` (`none`). -/
def transportsValues (ts : List String) : Option (List String) :=
  if ts.isEmpty then some [] else none

/-- Python `json.dumps` of a list of strings. -/
def jsonStringArray (ts : List String) : String :=
  "[" ++ String.intercalate ", " (ts.map (fun t => "\"" ++ t ++ "\"")) ++ "]"

/-- Embeds `AuthService.verify_registration`: read (without deleting) the
outstanding challenge, run the verification primitive, then in one
transaction insert the `User` row (flush checks the `username` unique
constraint) and the `Credential` row (commit checks the `credential_id`
unique constraint); on success delete the challenge and return the user.
Any failure leaves the committed state and the challenge map unchanged. -/
def verify_registration (username display_name : String)
    (resp : AttestationResponse) (db : DB) (st : ChallengeMap)
    (prim : RegPrimitive) (now : Nat) :
    Except AuthErr UserRow × DB × ChallengeMap :=
  match dictGet st username with
  | none => (.error .NoCeremonyInProgress, db, st)
  | some challengeHex =>
    match hexDecode challengeHex with
    | none => (.error .BadChallengeHex, db, st)
    | some challenge =>
      match prim resp challenge RP_ID RP_ORIGIN with
      | .error e => (.error (.AttestationInvalid e), db, st)
      | .ok v =>
        let uid := freshId (db.users.map (fun u => u.id))
        let user : UserRow :=
          { id := uid, username := username, display_name := display_name,
            email := none, created_at := now }
        if db.users.any (fun u => u.username == username) then
          (.error .IntegrityViolation, db, st)
        else
          match transportsValues resp.transports with
          | none => (.error .AttributeFault, db, st)
          | some ts =>
            let cred : CredRow :=
              { id := freshId (db.creds.map (fun c => c.id)), user_id := uid,
                credential_id := hexEncode v.credential_id,
                public_key := v.credential_public_key,
                sign_count := v.sign_count,
                transports := jsonStringArray ts,
                created_at := now, last_used_at := none }
            if db.creds.any
                (fun c => c.credential_id == hexEncode v.credential_id) then
              (.error .IntegrityViolation, db, st)
            else
              (.ok user,
               { users := db.users ++ [user], creds := db.creds ++ [cred] },
               dictDel st username)

/-! ## Authentication ceremony (`AuthService.generate_authentication_options`,
`AuthService.verify_authentication`) -/

/-- The configuration `generate_authentication_options` passes to the
`webauthn` option builder and returns.  `allow_credentials` lists the
stored credential ids of the user (the descriptors carry the decoded bytes
of these hex strings together with the stored transports). -/
structure AuthenticationOptions where
  rp_id : String
  challenge : Bytes
  allow_credentials : List String
  user_verification : String
deriving DecidableEq

/-- Embeds `AuthService.generate_authentication_options`: fail if the user
does not exist or owns no credentials, otherwise store the fresh challenge
(hex) under the username and return the ceremony options. -/
def generate_authentication_options (username : String) (db : DB)
    (fresh : Bytes) (st : ChallengeMap) :
    Except AuthErr (AuthenticationOptions × ChallengeMap) :=
  match findUser db username with
  | none => .error .UserNotFound
  | some user =>
    let credentials := userCredentials db user.id
    if credentials.isEmpty then .error .NoCredentials
    else
      let st' := dictSet st username (hexEncode fresh)
      .ok ({ rp_id := RP_ID, challenge := fresh,
             allow_credentials := credentials.map (fun c => c.credential_id),
             user_verification := "preferred" }, st')

/-- The lookup key `verify_authentication` derives from the response:
`bytes(credential_data["rawId"], "utf-8").hex()` when `rawId` is present
and a string, otherwise `credential_data["id"]` unchanged. -/
def authCredentialKey (resp : AssertionResponse) : String :=
  match resp.rawId with
  | some s => hexEncode (utf8Encode s)
  | none => resp.id

/-- Query for the credential of the user whose stored `credential_id`
equals the derived key. -/
def findCredential (db : DB) (uid : Nat) (key : String) : Option CredRow :=
  db.creds.find? (fun c => c.user_id == uid && c.credential_id == key)

/-- Embeds `AuthService.verify_authentication`: read (without deleting) the
outstanding challenge, resolve user and credential, run the verification
primitive with the stored public key and sign count, and on success commit
the returned counter and the last-used time, delete the challenge, and
return the user.  Any failure leaves the committed state and the challenge
map unchanged.  The code performs no comparison between the returned
counter and the stored one. -/
def verify_authentication (username : String) (resp : AssertionResponse)
    (db : DB) (st : ChallengeMap) (prim : AuthPrimitive) (now : Nat) :
    Except AuthErr UserRow × DB × ChallengeMap :=
  match dictGet st username with
  | none => (.error .NoCeremonyInProgress, db, st)
  | some challengeHex =>
    match hexDecode challengeHex with
    | none => (.error .BadChallengeHex, db, st)
    | some challenge =>
      match findUser db username with
      | none => (.error .UserNotFound, db, st)
      | some user =>
        match findCredential db user.id (authCredentialKey resp) with
        | none => (.error .CredentialNotFound, db, st)
        | some cred =>
          match prim resp challenge RP_ID RP_ORIGIN cred.public_key
              cred.sign_count with
          | .error e => (.error (.AssertionInvalid e), db, st)
          | .ok v =>
            let cred' :=
              { cred with sign_count := v.new_sign_count,
                          last_used_at := some now }
            let db' :=
              { db with creds :=
                  db.creds.map (fun c => if c.id == cred.id then cred' else c) }
            (.ok user, db', dictDel st username)

/-! ## Session issuer (`AuthService.create_access_token`,
`AuthService.verify_token`) -/

/-- The claim set encoded into a token: subject (stringified user id),
username, absolute expiry. -/
structure Claims where
  sub : String
  username : String
  exp : Nat
deriving DecidableEq

/-- A signed token of the idealised JWT model: the payload together with a
signature that identifies the signing key and the signed payload. -/
structure Token where
  payload : Claims
  sig : String × Claims
deriving DecidableEq

/-- Idealised `jwt.encode`: sign the payload with the key. -/
def jwtEncode (payload : Claims) (key : String) : Token :=
  { payload := payload, sig := (key, payload) }

/-- Idealised `jwt.decode`: succeed with the payload iff the signature was
produced with the same key over the same payload and the expiry lies in the
future; otherwise the `JWTError` is modelled as `none`. -/
def jwtDecode (t : Token) (key : String) (now : Nat) : Option Claims :=
  if t.sig = (key, t.payload) ∧ now < t.payload.exp then some t.payload else none

/-- Embeds `AuthService.create_access_token`: payload with subject
`str(user_id)`, the username, and expiry `now` plus the configured
lifetime, signed with the service secret. -/
def create_access_token (user_id : Nat) (username : String) (now : Nat) :
    Token :=
  jwtEncode { sub := toString user_id, username := username,
              exp := now + JWT_EXPIRATION_MINUTES * 60 } JWT_SECRET_KEY

/-- Embeds `AuthService.verify_token`: decode with the service secret,
returning `none` on any `JWTError`. -/
def verify_token (t : Token) (now : Nat) : Option Claims :=
  jwtDecode t JWT_SECRET_KEY now

/-! ## API routes (`src/backend/app/api/auth.py`)

The begin routes call `auth_service.generate_registration_options_for_user`
and `auth_service.generate_authentication_options_for_user`.  Python
resolves these names by attribute lookup on the `AuthService` instance;
the class defines no such attributes, so the lookup raises
`AttributeError`, which the `except Exception` handler of each route maps
to HTTP 500. -/

/-- The HTTP outcome of a route: 200 with a body, 400 with the detail of a
`ValueError`, or 500 from the `except Exception` handler. -/
inductive HTTPResp (α : Type) where
  | ok (body : α)
  | badRequest (err : AuthErr)
  | internalServerError
deriving DecidableEq

/-- Attribute names defined on `AuthService` instances: the field set in
`__init__` and the methods of the class body. -/
def authServiceAttrs : List String :=
  ["challenges", "generate_registration_options", "verify_registration",
   "generate_authentication_options", "verify_authentication",
   "create_access_token", "verify_token"]

/-- Python attribute lookup on the `auth_service` instance: does the name
resolve? -/
def hasAttr (name : String) : Bool := authServiceAttrs.contains name

/-- Route error mapping: `except ValueError` gives 400 with the message,
`except Exception` gives 500. -/
def toHTTPErr {α : Type} (e : AuthErr) : HTTPResp α :=
  if isValueError e then .badRequest e else .internalServerError

/-- Embeds the `POST /api/auth/register/begin` route: it invokes the
attribute `generate_registration_options_for_user` on the service; were the
attribute defined it would run the service call and map `ValueError` to
400, but the lookup fails and the generic handler returns 500. -/
def register_begin (username display_name : String) (db : DB)
    (st : ChallengeMap) (fresh : Bytes) :
    HTTPResp RegistrationOptions × ChallengeMap :=
  if hasAttr "generate_registration_options_for_user" then
    match generate_registration_options username display_name db fresh st with
    | .ok (o, st') => (.ok o, st')
    | .error e => (toHTTPErr e, st)
  else
    (.internalServerError, st)

/-- Embeds the `POST /api/auth/login/begin` route: it invokes the attribute
`generate_authentication_options_for_user` on the service; were the
attribute defined it would run the service call and map `ValueError` to
400, but the lookup fails and the generic handler returns 500. -/
def login_begin (username : String) (db : DB) (st : ChallengeMap)
    (fresh : Bytes) : HTTPResp AuthenticationOptions × ChallengeMap :=
  if hasAttr "generate_authentication_options_for_user" then
    match generate_authentication_options username db fresh st with
    | .ok (o, st') => (.ok o, st')
    | .error e => (toHTTPErr e, st)
  else
    (.internalServerError, st)

end EnvoyAuth

namespace EnvoyAuth

/-! ## Basic lemmas about the encodings and the challenge dictionary -/

theorem hexDigitVal_hexDigit (n : Nat) (h : n < 16) :
    hexDigitVal (hexDigit n) = some n := by
  interval_cases n <;> decide

theorem hexDecode_hexEncode (bs : Bytes) (h : ValidBytes bs) :
    hexDecode (hexEncode bs) = some bs := by
  show hexDecodeList (hexEncodeList bs) = some bs
  induction bs with
  | nil => rfl
  | cons b t ih =>
    have hb : b < 256 := h b (List.mem_cons_self b t)
    have ht : ValidBytes t := fun x hx => h x (List.mem_cons_of_mem b hx)
    have h1 : b / 16 % 16 < 16 := Nat.mod_lt _ (by norm_num)
    have h2 : b % 16 < 16 := Nat.mod_lt _ (by norm_num)
    have hbv : 16 * (b / 16 % 16) + b % 16 = b := by omega
    simp only [hexEncodeList, hexDecodeList, hexDigitVal_hexDigit _ h1,
      hexDigitVal_hexDigit _ h2, ih ht, hbv]

theorem dictGet_dictSet (m : ChallengeMap) (k v : String) :
    dictGet (dictSet m k v) k = some v := by
  induction m with
  | nil => simp [dictSet, dictGet]
  | cons p t ih =>
    obtain ⟨k', v'⟩ := p
    by_cases hk : k' = k
    · simp [dictSet, dictGet, hk]
    · simp [dictSet, dictGet, hk, ih]

/-! ## Helper lemmas about the completion paths -/

/-- The challenge map returned by `verify_registration` is the input map
with the username removed exactly when the call succeeded, and the input
map unchanged otherwise. -/
theorem verify_registration_challenge_map_eq (username display_name : String)
    (resp : AttestationResponse) (db : DB) (st : ChallengeMap)
    (prim : RegPrimitive) (now : Nat) :
    (verify_registration username display_name resp db st prim now).2.2 =
      (if isOkE (verify_registration username display_name resp db st prim now).1
       then dictDel st username else st) := by
  rcases hg : dictGet st username with _ | chex
  · simp [verify_registration, hg, isOkE]
  · rcases hdx : hexDecode chex with _ | ch
    · simp [verify_registration, hg, hdx, isOkE]
    · rcases hp : prim resp ch RP_ID RP_ORIGIN with e | v
      · simp [verify_registration, hg, hdx, hp, isOkE]
      · by_cases hdup : (db.users.any fun u => u.username == username) = true
        · simp [verify_registration, hg, hdx, hp, hdup, isOkE]
        · rcases htv : transportsValues resp.transports with _ | ts
          · simp [verify_registration, hg, hdx, hp, hdup, htv, isOkE]
          · by_cases hdup2 : (db.creds.any fun c =>
                c.credential_id == hexEncode v.credential_id) = true
            · simp [verify_registration, hg, hdx, hp, hdup, htv, hdup2, isOkE]
            · simp [verify_registration, hg, hdx, hp, hdup, htv, hdup2, isOkE]

/-- The challenge map returned by `verify_authentication` is the input map
with the username removed exactly when the call succeeded, and the input
map unchanged otherwise. -/
theorem verify_authentication_challenge_map_eq (username : String)
    (resp : AssertionResponse) (db : DB) (st : ChallengeMap)
    (prim : AuthPrimitive) (now : Nat) :
    (verify_authentication username resp db st prim now).2.2 =
      (if isOkE (verify_authentication username resp db st prim now).1
       then dictDel st username else st) := by
  rcases hg : dictGet st username with _ | chex
  · simp [verify_authentication, hg, isOkE]
  · rcases hdx : hexDecode chex with _ | ch
    · simp [verify_authentication, hg, hdx, isOkE]
    · rcases hfu : findUser db username with _ | u
      · simp [verify_authentication, hg, hdx, hfu, isOkE]
      · rcases hfc : findCredential db u.id (authCredentialKey resp) with _ | cr
        · simp [verify_authentication, hg, hdx, hfu, hfc, isOkE]
        · rcases hp : prim resp ch RP_ID RP_ORIGIN cr.public_key cr.sign_count
              with e | v
          · simp [verify_authentication, hg, hdx, hfu, hfc, hp, isOkE]
          · simp [verify_authentication, hg, hdx, hfu, hfc, hp, isOkE]

/-- When a challenge is outstanding for the username, `verify_authentication`
never fails with `NoCeremonyInProgress`. -/
theorem verify_authentication_ne_no_ceremony (username : String)
    (resp : AssertionResponse) (db : DB) (st : ChallengeMap)
    (prim : AuthPrimitive) (now : Nat) (c : String)
    (h : dictGet st username = some c) :
    (verify_authentication username resp db st prim now).1 ≠
      Except.error AuthErr.NoCeremonyInProgress := by
  intro hcontra
  unfold verify_authentication at hcontra
  rw [h] at hcontra
  repeat' split at hcontra
  all_goals simp_all

/-- When a challenge is outstanding for the username, `verify_registration`
never fails with `NoCeremonyInProgress`. -/
theorem verify_registration_ne_no_ceremony (username display_name : String)
    (resp : AttestationResponse) (db : DB) (st : ChallengeMap)
    (prim : RegPrimitive) (now : Nat) (c : String)
    (h : dictGet st username = some c) :
    (verify_registration username display_name resp db st prim now).1 ≠
      Except.error AuthErr.NoCeremonyInProgress := by
  intro hcontra
  unfold verify_registration at hcontra
  rw [h] at hcontra
  repeat' split at hcontra
  all_goals simp_all

end EnvoyAuth

namespace EnvoyAuth

/-! ## Claim C3 and C7: the begin endpoints -/

/-- C3: the claim says the registration-begin endpoint fails 400
UsernameTaken for a taken username and otherwise returns ceremony options.
In the code the route invokes `auth_service.generate_registration_options_for_user`,
an attribute `AuthService` does not define, so the `AttributeError` is
caught by the generic `except Exception` handler: every request to the
endpoint returns HTTP 500 and the challenge map is never touched. -/
theorem register_begin_always_internal_error (username display_name : String)
    (db : DB) (st : ChallengeMap) (fresh : Bytes) :
    register_begin username display_name db st fresh =
      (HTTPResp.internalServerError, st) := rfl

/-- C7: the claim says the authentication-begin endpoint fails 400
UserNotFound or 400 NoCredentials and otherwise returns ceremony options.
In the code the route invokes `auth_service.generate_authentication_options_for_user`,
an attribute `AuthService` does not define, so the `AttributeError` is
caught by the generic `except Exception` handler: every request to the
endpoint returns HTTP 500 and the challenge map is never touched. -/
theorem login_begin_always_internal_error (username : String) (db : DB)
    (st : ChallengeMap) (fresh : Bytes) :
    login_begin username db st fresh = (HTTPResp.internalServerError, st) := rfl

/-! ## Claim C9: session token round trip -/

/-- C9: verifying a freshly created session token succeeds and yields a
claim set whose subject is the stringified user id and whose username is
the given username ("freshly" meaning the verification time precedes the
expiry set at creation). -/
theorem verify_create_token_roundtrip (user_id : Nat) (username : String)
    (t t' : Nat) (h : t' < t + JWT_EXPIRATION_MINUTES * 60) :
    verify_token (create_access_token user_id username t) t' =
      some { sub := toString user_id, username := username,
             exp := t + JWT_EXPIRATION_MINUTES * 60 } := by
  simp [verify_token, create_access_token, jwtEncode, jwtDecode, h]

/-- Witness for C9: user id 7, username "alice", creation time 0,
verification time 1. -/
theorem verify_create_token_roundtrip_witness :
    verify_token (create_access_token 7 "alice" 0) 1 =
      some { sub := toString 7, username := "alice",
             exp := 0 + JWT_EXPIRATION_MINUTES * 60 } :=
  verify_create_token_roundtrip 7 "alice" 0 1 (by decide)

/-! ## Claim C5: a failed assertion leaves persisted state unchanged -/

/-- C5: when the verification primitive fails (tampered or incorrect
assertion signature), authentication-complete fails `AssertionInvalid`
with the primitive's detail and no persisted state is mutated: the
database (in particular the credential's `sign_count` and `last_used_at`)
and the challenge map are exactly what they were before the call. -/
theorem assertion_failure_preserves_state (username : String)
    (resp : AssertionResponse) (db : DB) (st : ChallengeMap)
    (prim : AuthPrimitive) (now : Nat) (challengeHex : String)
    (challenge : Bytes) (user : UserRow) (cred : CredRow) (e : String)
    (hch : dictGet st username = some challengeHex)
    (hdec : hexDecode challengeHex = some challenge)
    (huser : findUser db username = some user)
    (hcred : findCredential db user.id (authCredentialKey resp) = some cred)
    (hprim : prim resp challenge RP_ID RP_ORIGIN cred.public_key
        cred.sign_count = .error e) :
    verify_authentication username resp db st prim now =
      (.error (.AssertionInvalid e), db, st) := by
  simp [verify_authentication, hch, hdec, huser, hcred, hprim]

/-- Concrete scenario for C5: one user, one credential with sign_count 7,
a primitive that rejects the signature. -/
def c5Challenge : Bytes := [222, 173, 190, 239]

def c5St : ChallengeMap := [("alice", hexEncode c5Challenge)]

def c5User : UserRow :=
  { id := 1, username := "alice", display_name := "Alice A", email := none,
    created_at := 0 }

def c5Cred : CredRow :=
  { id := 1, user_id := 1, credential_id := "01020304", public_key := [9, 9],
    sign_count := 7, transports := "[]", created_at := 0, last_used_at := none }

def c5Db : DB := { users := [c5User], creds := [c5Cred] }

def c5Resp : AssertionResponse :=
  { rawId := none, id := "01020304", challenge := c5Challenge }

def c5Prim : AuthPrimitive := fun _ _ _ _ _ _ => .error "bad signature"

/-- Witness for C5 at the concrete scenario. -/
theorem assertion_failure_preserves_state_witness :
    verify_authentication "alice" c5Resp c5Db c5St c5Prim 9 =
      (.error (.AssertionInvalid "bad signature"), c5Db, c5St) :=
  assertion_failure_preserves_state "alice" c5Resp c5Db c5St c5Prim 9
    (hexEncode c5Challenge) c5Challenge c5User c5Cred "bad signature"
    (by decide) (by decide) (by decide) (by decide) (by decide)

/-! ## Claim C1: no sign-count comparison exists -/

/-- Concrete scenario for C1: stored sign_count 0 and a primitive that
succeeds returning new counter 0 — the situation py_webauthn actually
reaches when both the stored and the reported counter are zero. -/
def c1Challenge : Bytes := [222, 173]

def c1St : ChallengeMap := [("alice", hexEncode c1Challenge)]

def c1User : UserRow :=
  { id := 1, username := "alice", display_name := "Alice A", email := none,
    created_at := 0 }

def c1Cred : CredRow :=
  { id := 1, user_id := 1, credential_id := "01020304", public_key := [9, 9],
    sign_count := 0, transports := "[]", created_at := 0, last_used_at := none }

def c1Db : DB := { users := [c1User], creds := [c1Cred] }

def c1Resp : AssertionResponse :=
  { rawId := none, id := "01020304", challenge := c1Challenge }

def c1Prim : AuthPrimitive := fun _ _ _ _ _ _ => .ok { new_sign_count := 0 }

/-- Counterexample to C1: the stored sign_count is 0 and the primitive
returns the new counter 0, which is not strictly greater, yet
authentication-complete succeeds and mutates the stored credential
(`last_used_at` is set) instead of failing with `PossibleCloneDetected`
— no such failure mode exists in the code. -/
theorem authentication_accepts_non_incrementing_counter :
    isOkE (verify_authentication "alice" c1Resp c1Db c1St c1Prim 5).1 = true
    ∧ (verify_authentication "alice" c1Resp c1Db c1St c1Prim 5).2.1 ≠ c1Db := by
  decide

/-- C1 (amended): authentication-complete performs no comparison between
the counter returned by the primitive and the stored `sign_count`:
whenever the primitive succeeds — with any new counter value, strictly
greater or not — the returned counter and the last-used time are
persisted, the challenge is deleted, and the user is returned (the route
then mints the session token).  Clone detection is left entirely to the
external primitive. -/
theorem authentication_persists_any_returned_counter (username : String)
    (resp : AssertionResponse) (db : DB) (st : ChallengeMap)
    (prim : AuthPrimitive) (now : Nat) (challengeHex : String)
    (challenge : Bytes) (user : UserRow) (cred : CredRow) (n : Nat)
    (hch : dictGet st username = some challengeHex)
    (hdec : hexDecode challengeHex = some challenge)
    (huser : findUser db username = some user)
    (hcred : findCredential db user.id (authCredentialKey resp) = some cred)
    (hprim : prim resp challenge RP_ID RP_ORIGIN cred.public_key
        cred.sign_count = .ok { new_sign_count := n }) :
    verify_authentication username resp db st prim now =
      (.ok user,
       { db with creds := db.creds.map (fun c =>
           if c.id == cred.id then
             { cred with sign_count := n, last_used_at := some now }
           else c) },
       dictDel st username) := by
  simp [verify_authentication, hch, hdec, huser, hcred, hprim]

/-- Witness for the amended C1 at the concrete scenario: the
non-incrementing counter 0 is persisted and `last_used_at` set. -/
theorem authentication_persists_any_returned_counter_witness :
    verify_authentication "alice" c1Resp c1Db c1St c1Prim 5 =
      (.ok c1User,
       { c1Db with creds := c1Db.creds.map (fun c =>
           if c.id == c1Cred.id then
             { c1Cred with sign_count := 0, last_used_at := some 5 }
           else c) },
       dictDel c1St "alice") :=
  authentication_persists_any_returned_counter "alice" c1Resp c1Db c1St
    c1Prim 5 (hexEncode c1Challenge) c1Challenge c1User c1Cred 0
    (by decide) (by decide) (by decide) (by decide) (by decide)

/-! ## Claim C2: when the challenge is consumed -/

/-- Concrete scenario for C2: an outstanding registration challenge and a
primitive that rejects the attestation. -/
def c2Challenge : Bytes := [17, 34]

def c2St : ChallengeMap := [("alice", hexEncode c2Challenge)]

def c2Resp : AttestationResponse := { transports := [], challenge := c2Challenge }

def c2Prim : RegPrimitive := fun _ _ _ _ => .error "bad attestation"

def c2Db : DB := { users := [], creds := [] }

/-- Counterexample to C2: a completion attempt whose verification step
fails does NOT remove the challenge — the returned challenge map still
holds it — and a second completion attempt for the same username fails
`AttestationInvalid` again (reusing the challenge), not
`NoCeremonyInProgress` as the claim requires. -/
theorem failed_completion_retains_challenge :
    (verify_registration "alice" "Alice A" c2Resp c2Db c2St c2Prim 0).2.2 = c2St
    ∧ (verify_registration "alice" "Alice A" c2Resp c2Db
        (verify_registration "alice" "Alice A" c2Resp c2Db c2St c2Prim 0).2.2
        c2Prim 0).1 = .error (.AttestationInvalid "bad attestation")
    ∧ (verify_registration "alice" "Alice A" c2Resp c2Db
        (verify_registration "alice" "Alice A" c2Resp c2Db c2St c2Prim 0).2.2
        c2Prim 0).1 ≠ .error .NoCeremonyInProgress := by
  decide

/-- C2 (amended): each completion call (registration-complete or
authentication-complete) removes the challenge from the store exactly when
the completion succeeds; on any failure — including a failed verification
step — the challenge map is unchanged, so a second completion attempt for
the same username reuses the outstanding challenge rather than failing
`NoCeremonyInProgress`. -/
theorem completion_consumes_challenge_only_on_success
    (username display_name : String) (resp : AttestationResponse) (db : DB)
    (st : ChallengeMap) (prim : RegPrimitive) (now : Nat)
    (username2 : String) (resp2 : AssertionResponse) (db2 : DB)
    (st2 : ChallengeMap) (prim2 : AuthPrimitive) (now2 : Nat) :
    (verify_registration username display_name resp db st prim now).2.2 =
      (if isOkE (verify_registration username display_name resp db st prim now).1
       then dictDel st username else st)
    ∧ (verify_authentication username2 resp2 db2 st2 prim2 now2).2.2 =
      (if isOkE (verify_authentication username2 resp2 db2 st2 prim2 now2).1
       then dictDel st2 username2 else st2) :=
  ⟨verify_registration_challenge_map_eq username display_name resp db st prim now,
   verify_authentication_challenge_map_eq username2 resp2 db2 st2 prim2 now2⟩

end EnvoyAuth

namespace EnvoyAuth

/-! ## Claim C4: credential resolution at authentication-complete -/

/-- Concrete scenario for C4: an empty database, a registration that
verifies a credential with raw id bytes [1, 2, 3, 4], then an
authentication response carrying exactly that credential id in the
WebAuthn wire form (base64url, no padding). -/
def c4Challenge : Bytes := [17, 34]

def c4St : ChallengeMap := [("alice", hexEncode c4Challenge)]

def c4RegResp : AttestationResponse := { transports := [], challenge := c4Challenge }

def c4RegPrim : RegPrimitive := fun r ch _ _ =>
  if r.challenge = ch then
    .ok { credential_id := [1, 2, 3, 4], credential_public_key := [9, 9],
          sign_count := 0 }
  else .error "challenge mismatch"

def c4Db0 : DB := { users := [], creds := [] }

/-- The database after the successful registration: the credential id is
stored as the hex string of the raw bytes. -/
def c4Db1 : DB :=
  { users := [{ id := 1, username := "alice", display_name := "Alice A",
                email := none, created_at := 0 }],
    creds := [{ id := 1, user_id := 1, credential_id := "01020304",
                public_key := [9, 9], sign_count := 0, transports := "[]",
                created_at := 0, last_used_at := none }] }

def c4Challenge2 : Bytes := [51, 68]

def c4St2 : ChallengeMap := [("alice", hexEncode c4Challenge2)]

def c4AuthResp : AssertionResponse :=
  { rawId := some (base64urlEncode [1, 2, 3, 4]),
    id := base64urlEncode [1, 2, 3, 4], challenge := c4Challenge2 }

def c4AuthPrim : AuthPrimitive := fun r ch _ _ _ sc =>
  if r.challenge = ch then .ok { new_sign_count := sc + 1 }
  else .error "challenge mismatch"

/-- C4 (code bug): registration persists the verified credential id
[1, 2, 3, 4] as the hex string "01020304", but authentication-complete,
given an assertion response that carries exactly that credential id in the
WebAuthn wire encoding (rawId = base64url of the raw bytes, here "AQIDBA"),
derives its lookup key as the hex of the UTF-8 bytes of the base64url TEXT
("415149444241"), finds no match, and fails `CredentialNotFound` — even
though the response carries the stored credential's identifier, so the
claim's resolution guarantee fails (and no registered credential can ever
be resolved by a standard WebAuthn client). -/
theorem registered_credential_not_resolved :
    (verify_registration "alice" "Alice A" c4RegResp c4Db0 c4St c4RegPrim 0).2.1
      = c4Db1
    ∧ (c4Db1.creds.map fun c => c.credential_id) = [hexEncode [1, 2, 3, 4]]
    ∧ c4AuthResp.rawId = some (base64urlEncode [1, 2, 3, 4])
    ∧ (verify_authentication "alice" c4AuthResp c4Db1 c4St2 c4AuthPrim 1).1
        = .error .CredentialNotFound := by
  decide

/-! ## Claim C6: atomicity of the registration pair -/

/-- The `User` row `verify_registration` inserts. -/
def regNewUser (username display_name : String) (db : DB) (now : Nat) : UserRow :=
  { id := freshId (db.users.map fun u => u.id), username := username,
    display_name := display_name, email := none, created_at := now }

/-- The `Credential` row `verify_registration` inserts alongside the user
(the transports list is necessarily empty on the success path). -/
def regNewCred (db : DB) (v : VerifiedRegistration) (now : Nat) : CredRow :=
  { id := freshId (db.creds.map fun c => c.id),
    user_id := freshId (db.users.map fun u => u.id),
    credential_id := hexEncode v.credential_id,
    public_key := v.credential_public_key, sign_count := v.sign_count,
    transports := jsonStringArray [], created_at := now, last_used_at := none }

/-- C6: the User row and the Credential row of a registration completion
are created in one atomic unit — the committed state either gains exactly
the pair (with the credential owned by the new user) or is unchanged; in
particular a duplicate credential-id detected at commit, after the User
insert, rolls the User insert back as well, so no User without a
Credential is ever observable. -/
theorem registration_pair_atomic (username display_name : String)
    (resp : AttestationResponse) (db : DB) (st : ChallengeMap)
    (prim : RegPrimitive) (now : Nat) (challengeHex : String)
    (challenge : Bytes) (v : VerifiedRegistration)
    (hch : dictGet st username = some challengeHex)
    (hdec : hexDecode challengeHex = some challenge)
    (hprim : prim resp challenge RP_ID RP_ORIGIN = .ok v) :
    (((verify_registration username display_name resp db st prim now).2.1 = db
      ∧ isOkE (verify_registration username display_name resp db st prim now).1
          = false)
     ∨ ((verify_registration username display_name resp db st prim now).2.1 =
          { users := db.users ++ [regNewUser username display_name db now],
            creds := db.creds ++ [regNewCred db v now] }
        ∧ (verify_registration username display_name resp db st prim now).1 =
            .ok (regNewUser username display_name db now)
        ∧ (regNewCred db v now).user_id = (regNewUser username display_name db now).id))
    ∧ ((db.creds.any fun c => c.credential_id == hexEncode v.credential_id) = true →
        (verify_registration username display_name resp db st prim now).2.1 = db) := by
  by_cases hdup : (db.users.any fun u => u.username == username) = true
  · refine ⟨Or.inl ⟨?_, ?_⟩, fun _ => ?_⟩ <;>
      simp [verify_registration, hch, hdec, hprim, hdup, isOkE]
  · rcases htv : transportsValues resp.transports with _ | ts
    · refine ⟨Or.inl ⟨?_, ?_⟩, fun _ => ?_⟩ <;>
        simp [verify_registration, hch, hdec, hprim, hdup, htv, isOkE]
    · have hts : ts = [] := by
        by_cases he : resp.transports.isEmpty
        · simp [transportsValues, he] at htv
          exact htv
        · simp [transportsValues, he] at htv
      subst hts
      by_cases hdup2 : (db.creds.any fun c =>
          c.credential_id == hexEncode v.credential_id) = true
      · refine ⟨Or.inl ⟨?_, ?_⟩, fun _ => ?_⟩ <;>
          simp [verify_registration, hch, hdec, hprim, hdup, htv, hdup2, isOkE]
      · refine ⟨Or.inr ⟨?_, ?_, rfl⟩, fun h2 => absurd h2 hdup2⟩ <;>
          simp [verify_registration, hch, hdec, hprim, hdup, htv, hdup2,
            regNewUser, regNewCred]

/-- Concrete scenario for C6: empty database, outstanding challenge, a
primitive that verifies the attestation. -/
def c6Challenge : Bytes := [1, 2]

def c6St : ChallengeMap := [("bob", hexEncode c6Challenge)]

def c6Resp : AttestationResponse := { transports := [], challenge := c6Challenge }

def c6V : VerifiedRegistration :=
  { credential_id := [5, 6], credential_public_key := [7], sign_count := 0 }

def c6Prim : RegPrimitive := fun _ _ _ _ => .ok c6V

def c6Db : DB := { users := [], creds := [] }

/-- Witness for C6 at the concrete scenario (the success side of the
disjunction holds there). -/
theorem registration_pair_atomic_witness :
    (((verify_registration "bob" "Bob B" c6Resp c6Db c6St c6Prim 3).2.1 = c6Db
      ∧ isOkE (verify_registration "bob" "Bob B" c6Resp c6Db c6St c6Prim 3).1
          = false)
     ∨ ((verify_registration "bob" "Bob B" c6Resp c6Db c6St c6Prim 3).2.1 =
          { users := c6Db.users ++ [regNewUser "bob" "Bob B" c6Db 3],
            creds := c6Db.creds ++ [regNewCred c6Db c6V 3] }
        ∧ (verify_registration "bob" "Bob B" c6Resp c6Db c6St c6Prim 3).1 =
            .ok (regNewUser "bob" "Bob B" c6Db 3)
        ∧ (regNewCred c6Db c6V 3).user_id = (regNewUser "bob" "Bob B" c6Db 3).id))
    ∧ ((c6Db.creds.any fun c => c.credential_id == hexEncode c6V.credential_id) = true →
        (verify_registration "bob" "Bob B" c6Resp c6Db c6St c6Prim 3).2.1 = c6Db) :=
  registration_pair_atomic "bob" "Bob B" c6Resp c6Db c6St c6Prim 3
    (hexEncode c6Challenge) c6Challenge c6V (by decide) (by decide) (by decide)

end EnvoyAuth

namespace EnvoyAuth

/-! ## Claim C8: one outstanding challenge per username -/

/-- C8: the challenge store holds at most one outstanding challenge per
username — a second begin call overwrites the first challenge, so the
store afterwards maps the username to the second challenge only, and a
completion presenting a response bound to the first challenge fails
verification (for any verification primitive that only accepts responses
bound to the expected challenge, as WebAuthn prescribes). -/
theorem second_begin_invalidates_first_challenge (username display_name : String)
    (db db2 : DB) (st st1 st2 : ChallengeMap) (f1 f2 : Bytes)
    (o1 o2 : RegistrationOptions) (resp : AttestationResponse)
    (prim : RegPrimitive) (now : Nat)
    (h1 : generate_registration_options username display_name db f1 st =
        .ok (o1, st1))
    (h2 : generate_registration_options username display_name db f2 st1 =
        .ok (o2, st2))
    (hne : f1 ≠ f2) (hvb : ValidBytes f2)
    (hbind : ∀ r ch rp org v, prim r ch rp org = .ok v → r.challenge = ch)
    (hresp : resp.challenge = f1) :
    dictGet st2 username = some (hexEncode f2)
    ∧ isOkE (verify_registration username display_name resp db2 st2 prim now).1
        = false := by
  rcases hfu : findUser db username with _ | u
  · simp [generate_registration_options, hfu] at h2
    obtain ⟨-, hst⟩ := h2
    subst hst
    refine ⟨dictGet_dictSet st1 username (hexEncode f2), ?_⟩
    rcases hp : prim resp f2 RP_ID RP_ORIGIN with e | v
    · simp [verify_registration, dictGet_dictSet,
        hexDecode_hexEncode f2 hvb, hp, isOkE]
    · exact absurd (hresp.symm.trans (hbind _ _ _ _ _ hp)) hne
  · simp [generate_registration_options, hfu] at h2

/-- Concrete scenario for C8: two sequential registration begins with
challenges [1] and [2], and a challenge-binding primitive. -/
def c8Prim : RegPrimitive := fun r ch _ _ =>
  if r.challenge = ch then
    .ok { credential_id := [1], credential_public_key := [1], sign_count := 0 }
  else .error "challenge mismatch"

def c8Resp : AttestationResponse := { transports := [], challenge := [1] }

def c8Opts1 : RegistrationOptions :=
  { rp_id := RP_ID, rp_name := RP_NAME, user_id := utf8Encode "u",
    user_name := "u", user_display_name := "d", challenge := [1],
    pub_key_algs := [-7, -257], user_verification := "preferred" }

def c8Opts2 : RegistrationOptions := { c8Opts1 with challenge := [2] }

/-- Witness for C8 at the concrete scenario. -/
theorem second_begin_invalidates_first_challenge_witness :
    dictGet [("u", hexEncode [2])] "u" = some (hexEncode [2])
    ∧ isOkE (verify_registration "u" "d" c8Resp { users := [], creds := [] }
        [("u", hexEncode [2])] c8Prim 0).1 = false :=
  second_begin_invalidates_first_challenge "u" "d"
    { users := [], creds := [] } { users := [], creds := [] }
    [] [("u", hexEncode [1])] [("u", hexEncode [2])] [1] [2]
    c8Opts1 c8Opts2 c8Resp c8Prim 0
    (by decide) (by decide) (by decide) (by decide)
    (fun r ch rp org v h => by
      by_cases hc : r.challenge = ch
      · exact hc
      · simp [c8Prim, hc] at h)
    rfl

/-! ## Claim C10: the challenge store is not ceremony-bound -/

/-- C10: the challenge store does not bind a challenge to the ceremony
type that issued it — a challenge issued by registration-begin is found by
the outstanding-challenge lookup of authentication-complete for that
username (which therefore cannot fail `NoCeremonyInProgress`), and a
challenge issued by authentication-begin is likewise found by
registration-complete, because both ceremonies read and write the same
username-keyed map. -/
theorem challenge_store_not_ceremony_bound (username display_name : String)
    (db : DB) (fresh : Bytes) (st st' : ChallengeMap) (o : RegistrationOptions)
    (resp : AssertionResponse) (db2 : DB) (prim : AuthPrimitive) (now : Nat)
    (username2 display2 : String) (db3 : DB) (fresh2 : Bytes)
    (st3 st4 : ChallengeMap) (o2 : AuthenticationOptions)
    (resp2 : AttestationResponse) (db4 : DB) (prim2 : RegPrimitive) (now2 : Nat)
    (ha : generate_registration_options username display_name db fresh st =
        .ok (o, st'))
    (hb : generate_authentication_options username2 db3 fresh2 st3 =
        .ok (o2, st4)) :
    dictGet st' username = some (hexEncode fresh)
    ∧ (verify_authentication username resp db2 st' prim now).1 ≠
        Except.error AuthErr.NoCeremonyInProgress
    ∧ (verify_registration username2 display2 resp2 db4 st4 prim2 now2).1 ≠
        Except.error AuthErr.NoCeremonyInProgress := by
  have hst : dictGet st' username = some (hexEncode fresh) := by
    rcases hfu : findUser db username with _ | u
    · simp [generate_registration_options, hfu] at ha
      obtain ⟨-, h⟩ := ha
      exact h ▸ dictGet_dictSet st username (hexEncode fresh)
    · simp [generate_registration_options, hfu] at ha
  have hst4 : dictGet st4 username2 = some (hexEncode fresh2) := by
    rcases hfu : findUser db3 username2 with _ | u
    · simp [generate_authentication_options, hfu] at hb
    · by_cases he : (userCredentials db3 u.id).isEmpty = true
      · simp [generate_authentication_options, hfu, he] at hb
      · simp [generate_authentication_options, hfu, he] at hb
        obtain ⟨-, h⟩ := hb
        exact h ▸ dictGet_dictSet st3 username2 (hexEncode fresh2)
  exact ⟨hst,
    verify_authentication_ne_no_ceremony username resp db2 st' prim now _ hst,
    verify_registration_ne_no_ceremony username2 display2 resp2 db4 st4
      prim2 now2 _ hst4⟩

/-- Concrete scenario for C10: registration-begin for a fresh user "u" and
authentication-begin for an existing user "v" with one credential. -/
def c10Db : DB :=
  { users := [{ id := 1, username := "v", display_name := "V", email := none,
                created_at := 0 }],
    creds := [{ id := 1, user_id := 1, credential_id := "aa",
                public_key := [0], sign_count := 0, transports := "[]",
                created_at := 0, last_used_at := none }] }

def c10RegOpts : RegistrationOptions :=
  { rp_id := RP_ID, rp_name := RP_NAME, user_id := utf8Encode "u",
    user_name := "u", user_display_name := "d", challenge := [1],
    pub_key_algs := [-7, -257], user_verification := "preferred" }

def c10AuthOpts : AuthenticationOptions :=
  { rp_id := RP_ID, challenge := [3], allow_credentials := ["aa"],
    user_verification := "preferred" }

def c10Resp : AssertionResponse := { rawId := none, id := "x", challenge := [1] }

def c10RegResp : AttestationResponse := { transports := [], challenge := [3] }

/-- Witness for C10 at the concrete scenario. -/
theorem challenge_store_not_ceremony_bound_witness :
    dictGet [("u", hexEncode [1])] "u" = some (hexEncode [1])
    ∧ (verify_authentication "u" c10Resp { users := [], creds := [] }
        [("u", hexEncode [1])] (fun _ _ _ _ _ _ => .error "e") 0).1 ≠
        Except.error AuthErr.NoCeremonyInProgress
    ∧ (verify_registration "v" "V" c10RegResp c10Db [("v", hexEncode [3])]
        (fun _ _ _ _ => .error "e") 0).1 ≠
        Except.error AuthErr.NoCeremonyInProgress :=
  challenge_store_not_ceremony_bound "u" "d" { users := [], creds := [] } [1]
    [] [("u", hexEncode [1])] c10RegOpts c10Resp { users := [], creds := [] }
    (fun _ _ _ _ _ _ => .error "e") 0
    "v" "V" c10Db [3] [] [("v", hexEncode [3])] c10AuthOpts c10RegResp c10Db
    (fun _ _ _ _ => .error "e") 0
    (by decide) (by decide)

end EnvoyAuth
